import Mathlib

/-!
Verification of the SafeContentText repository (SafeTextContentApi.py and
bad_text_detector.py) against its natural-language specification.

The two Python files are thin front-ends around an opaque zero-shot
classifier.  The classifier itself (the transformers pipeline call) is
external to the repository, so it is modelled as a parameter: a function
from a batch of texts and a label list to either an exception
(Except.error) or a pipeline output (a single result dict for a single
input, or a list of result dicts for a batch).  Scores are modelled as
rationals: the claims only compare scores to a threshold, and comparison
of IEEE floats agrees with comparison of the rationals they denote.

Python dicts are modelled as association lists in insertion order, with
the CPython duplicate-key behaviour (a repeated key keeps its first
position and takes the last value).  Configuration constants of the API
module (ENABLE_TEXT_PARAM, ENABLE_FAST_DETECT) are parameters of the
embedded functions, since the claims quantify over both settings.

Each HTTP endpoint is split into a route function, which performs the
validation the handler does before calling classify_texts and returns
either the HTTPException raised or the arguments of the one
classify_texts call (a ClassifyCall), and a composed function equal to
the whole handler; the route function makes the statements about what
happens before any classification call direct.  The CLI main is split
the same way: cli_collect_inputs is everything main does before the
pipeline is loaded, and cli_main is the whole run.
-/

/-- Insertion into a Python dict modelled as an association list: if the key
is present its value is updated in place, otherwise the pair is appended. -/
def dictInsert {α : Type} (d : List (String × α)) (k : String) (v : α) :
    List (String × α) :=
  if d.any (fun p => p.1 == k) then
    d.map (fun p => if p.1 == k then (k, v) else p)
  else
    d ++ [(k, v)]

/-- The Python expression dict(zip(ks, vs)). -/
def dictZip {α : Type} (ks : List String) (vs : List α) : List (String × α) :=
  (ks.zip vs).foldl (fun d p => dictInsert d p.1 p.2) []

/-- The Python expression d.update(new) on dicts modelled as association
lists. -/
def dictUpdate {α : Type} (d new : List (String × α)) : List (String × α) :=
  new.foldl (fun acc p => dictInsert acc p.1 p.2) d

/-- One result dict of the zero-shot pipeline for one text: the parallel
"labels" and "scores" lists. -/
structure RawResult where
  labels : List String
  scores : List Rat
deriving DecidableEq

/-- What the pipeline call returns: a single result dict for a single
input, or a list of result dicts for a batch (the isinstance(raw, dict)
test in both files distinguishes the two shapes). -/
inductive ClassifierOut where
  | single : RawResult → ClassifierOut
  | batch : List RawResult → ClassifierOut
deriving DecidableEq

/-- The opaque classifier: texts and candidate labels in, output or an
exception out. -/
abbrev Classifier := List String → List String → Except String ClassifierOut

/-- The normalisation step shared by both files: a single dict becomes a
one-element list, a list is kept as is. -/
def normalizeRaw : ClassifierOut → List RawResult
  | ClassifierOut.single r => [r]
  | ClassifierOut.batch rs => rs

/-- An HTTPException raised by a FastAPI handler: status code and detail
message. -/
structure HTTPError where
  status : Nat
  detail : String
deriving DecidableEq

/-- The DetectResult response model of SafeTextContentApi.py. -/
structure DetectResult where
  text : String
  scores : List (String × Rat)
  flagged_labels : List (String × Rat)
  is_safe : Option Bool
deriving DecidableEq

/-- The DetectResponse response model of SafeTextContentApi.py. -/
structure DetectResponse where
  results : List DetectResult
deriving DecidableEq

/-- The arguments of the one classify_texts call an endpoint makes once its
input validation has passed; used to state which texts, labels and
threshold are classified. -/
structure ClassifyCall where
  texts : List String
  labels : List String
  threshold : Rat
deriving DecidableEq

/-- The DEFAULT_LABELS list, identical in SafeTextContentApi.py and
bad_text_detector.py. -/
def DEFAULT_LABELS : List String :=
  ["profanity", "hate speech", "graphic violence", "self-harm",
   "sexual content", "insult", "terrorism"]

/-- classify_texts of SafeTextContentApi.py: run the classifier on the
batch; on any exception raise HTTP 500; otherwise zip texts with the
normalised results and build one DetectResult each, with flagged_labels
the sub-dict of scores at or above the threshold and is_safe (when
ENABLE_FAST_DETECT) the emptiness of that sub-dict. -/
def classify_texts (classifier : Classifier) (enable_fast_detect : Bool)
    (texts labels : List String) (threshold : Rat) :
    Except HTTPError (List DetectResult) :=
  match classifier texts labels with
  | Except.error _ => Except.error ⟨500, "Internal classification error"⟩
  | Except.ok raw0 =>
    Except.ok ((texts.zip (normalizeRaw raw0)).map (fun tr =>
      let label_scores := dictZip tr.2.labels tr.2.scores
      let flagged := label_scores.filter (fun p => threshold ≤ p.2)
      { text := tr.1
        scores := label_scores
        flagged_labels := flagged
        is_safe := if enable_fast_detect then some flagged.isEmpty else none }))

/-- The DetectRequest body model of POST /detect, after pydantic parsing:
texts is required, labels and threshold are optional (null is allowed). -/
structure DetectRequest where
  texts : List String
  labels : Option (List String)
  threshold : Option Rat
deriving DecidableEq

/-- Pydantic parsing of the POST /detect body: a labels field that is
absent from the JSON takes the declared default DEFAULT_LABELS, an absent
threshold takes 0.5; an explicit null stays null (none). -/
def mkDetectRequest (texts : List String)
    (labelsField : Option (Option (List String)))
    (thresholdField : Option (Option Rat)) : DetectRequest :=
  { texts := texts
    labels := labelsField.getD (some DEFAULT_LABELS)
    threshold := thresholdField.getD (some 0.5) }

/-- The body of the detect_post handler up to its classify_texts call:
labels or DEFAULT_LABELS (so null and the empty list both fall back to the
default), threshold if not None else 0.5. -/
def detect_post_route (request : DetectRequest) : ClassifyCall :=
  { texts := request.texts
    labels :=
      match request.labels with
      | none => DEFAULT_LABELS
      | some ls => if ls.isEmpty then DEFAULT_LABELS else ls
    threshold := request.threshold.getD 0.5 }

/-- The whole POST /detect handler. -/
def detect_post (classifier : Classifier) (enable_fast_detect : Bool)
    (request : DetectRequest) : Except HTTPError DetectResponse :=
  match classify_texts classifier enable_fast_detect
      (detect_post_route request).texts (detect_post_route request).labels
      (detect_post_route request).threshold with
  | Except.error e => Except.error e
  | Except.ok results => Except.ok ⟨results⟩

/-- FastAPI Query parsing for GET /detect: the labels parameter defaults
to DEFAULT_LABELS and threshold defaults to 0.5 when absent from the query
string. -/
def detect_get_parse (labelsGiven : Option (List String))
    (thresholdGiven : Option Rat) : List String × Rat :=
  (labelsGiven.getD DEFAULT_LABELS, thresholdGiven.getD 0.5)

/-- The detect_get handler up to its classify_texts call: a supplied text
parameter is checked against ENABLE_TEXT_PARAM (HTTP 400 when disabled)
and wins over texts; a missing or empty texts list without text raises
HTTP 422; labels falls back to DEFAULT_LABELS when empty. -/
def detect_get_route (enable_text_param : Bool) (texts : Option (List String))
    (text : Option String) (labels : List String) (threshold : Rat) :
    Except HTTPError ClassifyCall :=
  match text with
  | some t =>
    if enable_text_param then
      Except.ok
        { texts := [t]
          labels := if labels.isEmpty then DEFAULT_LABELS else labels
          threshold := threshold }
    else
      Except.error ⟨400, "Single-text query param \x27text\x27 not supported"⟩
  | none =>
    match texts with
    | some ts =>
      if ts.isEmpty then
        Except.error
          ⟨422, "Provide either \x27texts\x27 or \x27text\x27 query parameter"⟩
      else
        Except.ok
          { texts := ts
            labels := if labels.isEmpty then DEFAULT_LABELS else labels
            threshold := threshold }
    | none =>
      Except.error
        ⟨422, "Provide either \x27texts\x27 or \x27text\x27 query parameter"⟩

/-- The whole GET /detect handler. -/
def detect_get (classifier : Classifier)
    (enable_fast_detect enable_text_param : Bool)
    (texts : Option (List String)) (text : Option String)
    (labelsGiven : Option (List String)) (thresholdGiven : Option Rat) :
    Except HTTPError DetectResponse :=
  match detect_get_route enable_text_param texts text
      (detect_get_parse labelsGiven thresholdGiven).1
      (detect_get_parse labelsGiven thresholdGiven).2 with
  | Except.error e => Except.error e
  | Except.ok call =>
    match classify_texts classifier enable_fast_detect call.texts call.labels
        call.threshold with
    | Except.error e => Except.error e
    | Except.ok results => Except.ok ⟨results⟩

/-- The characters Python str.splitlines treats as line boundaries. -/
def isLineBoundary (c : Char) : Bool :=
  c = '\n' || c = '\r' || c = Char.ofNat 0x0b || c = Char.ofNat 0x0c ||
  c = Char.ofNat 0x1c || c = Char.ofNat 0x1d || c = Char.ofNat 0x1e ||
  c = Char.ofNat 0x85 || c = Char.ofNat 0x2028 || c = Char.ofNat 0x2029

/-- Worker for pySplitlines: acc holds the current line reversed; a
carriage return followed by a line feed counts as a single boundary, and a
trailing boundary does not open a final empty line. -/
def splitlinesGo : List Char → List Char → List String
  | [], [] => []
  | [], acc => [String.mk acc.reverse]
  | '\r' :: '\n' :: rest, acc => String.mk acc.reverse :: splitlinesGo rest []
  | c :: rest, acc =>
    if isLineBoundary c then String.mk acc.reverse :: splitlinesGo rest []
    else splitlinesGo rest (c :: acc)

/-- Python str.splitlines. -/
def pySplitlines (s : String) : List String :=
  splitlinesGo s.data []

/-- The detect_file handler up to its classify_texts call: a content type
other than text/plain raises HTTP 400; otherwise the decoded content is
split with splitlines when it contains a line feed, else taken as one
text. -/
def detect_file_route (content_type : String) (content : String)
    (labels : List String) (threshold : Rat) : Except HTTPError ClassifyCall :=
  if content_type ≠ "text/plain" then
    Except.error ⟨400, "Only text/plain supported."⟩
  else
    Except.ok
      { texts := if content.contains '\n' then pySplitlines content
                 else [content]
        labels := labels
        threshold := threshold }

/-- FastAPI Form parsing for POST /detect/file: labels defaults to
DEFAULT_LABELS and threshold to 0.5 when the form fields are absent. -/
def detect_file_parse (labelsGiven : Option (List String))
    (thresholdGiven : Option Rat) : List String × Rat :=
  (labelsGiven.getD DEFAULT_LABELS, thresholdGiven.getD 0.5)

/-- The whole POST /detect/file handler. -/
def detect_file (classifier : Classifier) (enable_fast_detect : Bool)
    (content_type : String) (content : String)
    (labelsGiven : Option (List String)) (thresholdGiven : Option Rat) :
    Except HTTPError DetectResponse :=
  match detect_file_route content_type content
      (detect_file_parse labelsGiven thresholdGiven).1
      (detect_file_parse labelsGiven thresholdGiven).2 with
  | Except.error e => Except.error e
  | Except.ok call =>
    match classify_texts classifier enable_fast_detect call.texts call.labels
        call.threshold with
    | Except.error e => Except.error e
    | Except.ok results => Except.ok ⟨results⟩

deriving instance DecidableEq for Except

/-- One file discovered while walking a directory, in os.walk order: its
joined path, its bare name, and the outcome of opening and reading it. -/
structure DirEntry where
  path : String
  name : String
  read : Except String String
deriving DecidableEq

/-- Python str.lower, character by character (ASCII case mapping, the only
case the file names of the claims exercise). -/
def pyLower (s : String) : String :=
  String.mk (s.data.map Char.toLower)

/-- Python str.endswith. -/
def pyEndswith (s suffix : String) : Bool :=
  suffix.data.isSuffixOf s.data

/-- The filter of load_texts_from_dir: the lowercased file name ends in
.txt. -/
def txtName (e : DirEntry) : Bool :=
  pyEndswith (pyLower e.name) ".txt"

/-- One iteration of load_texts_from_dir: a readable .txt file is added to
the dict, an unreadable one only appends a warning, anything else is
ignored. -/
def loadStep (acc : List (String × String) × List String) (e : DirEntry) :
    List (String × String) × List String :=
  if txtName e then
    match e.read with
    | Except.ok content => (dictInsert acc.1 e.path content, acc.2)
    | Except.error msg =>
      (acc.1, acc.2 ++ ["Could not read " ++ e.path ++ ": " ++ msg])
  else acc

/-- load_texts_from_dir of bad_text_detector.py, also returning the
logging.warning messages it emits. -/
def load_texts_from_dir (entries : List DirEntry) :
    List (String × String) × List String :=
  entries.foldl loadStep ([], [])

/-- The (path, content) pair a directory entry contributes when its read
succeeds. -/
def okEntry (e : DirEntry) : Option (String × String) :=
  match e.read with
  | Except.ok c => some (e.path, c)
  | Except.error _ => none

/-- The warning a directory entry contributes when its read fails. -/
def warnEntry (e : DirEntry) : Option String :=
  match e.read with
  | Except.ok _ => none
  | Except.error msg => some ("Could not read " ++ e.path ++ ": " ++ msg)

/-- How a CLI run can terminate early: sys.exit(1) after logging.error, an
argparse usage error (p.error, exit code 2), or an exception escaping
main. -/
inductive CliError where
  | exit1 : String → CliError
  | usage : String → CliError
  | uncaught : String → CliError
deriving DecidableEq

/-- The input-collection phase of main in bad_text_detector.py, everything
before the pipeline is loaded.  text is the --text argument; file is the
--file argument together with the content of that path when it is a
regular file; dir is the --dir argument together with the walked entries
when it is a directory.  Empty strings passed to --text, --file or --dir
are falsy in Python and skip their block. -/
def cli_collect_inputs (text : Option String)
    (file : Option (String × Option String))
    (dir : Option (String × Option (List DirEntry))) :
    Except CliError (List (String × String)) := do
  let inputs0 : List (String × String) :=
    match text with
    | some t => if t = "" then [] else [("<input>", t)]
    | none => []
  let inputs1 ←
    match file with
    | some (path, content) =>
      if path = "" then pure inputs0
      else
        match content with
        | none => Except.error (CliError.exit1 ("File not found: " ++ path))
        | some c => pure (dictInsert inputs0 path c)
    | none => pure inputs0
  let inputs2 ←
    match dir with
    | some (path, entries) =>
      if path = "" then pure inputs1
      else
        match entries with
        | none =>
          Except.error (CliError.exit1 ("Directory not found: " ++ path))
        | some es => pure (dictUpdate inputs1 (load_texts_from_dir es).1)
    | none => pure inputs1
  if inputs2.isEmpty then
    Except.error (CliError.usage
      "Please specify --text, --file, or --dir with at least one input")
  else
    pure inputs2

/-- argparse parsing of --labels: comma split with strip, default
DEFAULT_LABELS. -/
def cli_parse_labels : Option String → List String
  | none => DEFAULT_LABELS
  | some s => (s.splitOn ",").map String.trim

/-- argparse parsing of --threshold: default 0.5. -/
def cli_parse_threshold : Option Rat → Rat
  | none => 0.5
  | some t => t

/-- detect_bad_content of bad_text_detector.py: the raw pipeline call with
the single-dict normalisation; an exception propagates (main has no
handler for it). -/
def detect_bad_content (classifier : Classifier) (texts labels : List String) :
    Except String (List RawResult) :=
  match classifier texts labels with
  | Except.error e => Except.error e
  | Except.ok raw => Except.ok (normalizeRaw raw)

/-- One console line of the CLI output loop: the source identifier, whether
it was printed as FLAGGED (truthiness of the high dict), and the high
dict itself. -/
structure CliRecord where
  source : String
  flagged : Bool
  high : List (String × Rat)
deriving DecidableEq

/-- The display loop of main: zip the inputs dict with the results,
compute each high dict by thresholding and print one line per input. -/
def cli_process (inputs : List (String × String)) (raws : List RawResult)
    (threshold : Rat) : List CliRecord :=
  (inputs.zip raws).map (fun ir =>
    let label_scores := dictZip ir.2.labels ir.2.scores
    let high := label_scores.filter (fun p => threshold ≤ p.2)
    { source := ir.1.1
      flagged := !high.isEmpty
      high := high })

/-- The whole CLI run of bad_text_detector.py (console output only; the
optional --output JSON dump adds nothing the claims mention). -/
def cli_main (classifier : Classifier) (text : Option String)
    (file : Option (String × Option String))
    (dir : Option (String × Option (List DirEntry)))
    (labelsArg : Option String) (thresholdArg : Option Rat) :
    Except CliError (List CliRecord) := do
  let inputs ← cli_collect_inputs text file dir
  match detect_bad_content classifier (inputs.map Prod.snd)
      (cli_parse_labels labelsArg) with
  | Except.error e => Except.error (CliError.uncaught e)
  | Except.ok raws =>
    pure (cli_process inputs raws (cli_parse_threshold thresholdArg))

/-- Concrete witness classifier for C1: label a scores 3/4 and label b
scores 1/4. -/
def wClassifierC1 : Classifier :=
  fun _ _ => Except.ok (ClassifierOut.batch [⟨["a", "b"], [3/4, 1/4]⟩])

/-- The DetectResult produced by wClassifierC1 on the text x at threshold
1/2. -/
def wResultC1 : DetectResult :=
  { text := "x"
    scores := [("a", 3/4), ("b", 1/4)]
    flagged_labels := [("a", 3/4)]
    is_safe := some false }

/-- Witness classifier whose underlying model call always fails. -/
def wClassifierFail : Classifier :=
  fun _ _ => Except.error "model call failed"

/-- Witness inputs dict and raw result for the CLI display loop. -/
def wCliInputs : List (String × String) :=
  [("<input>", "x")]

/-- Witness raw result list matching wCliInputs. -/
def wCliRaws : List RawResult :=
  [⟨["a"], [1]⟩]

/-- Witness directory walk for C7: three .txt files of which the middle
one cannot be read. -/
def wDirEntries : List DirEntry :=
  [⟨"d/a.txt", "a.txt", Except.ok "first"⟩,
   ⟨"d/b.txt", "b.txt", Except.error "Permission denied"⟩,
   ⟨"d/c.txt", "c.txt", Except.ok "third"⟩]

/-- Claim C1: for every input text and threshold t in [0,1], flagged_labels
is exactly the submapping of scores with value at least t, and, when the
derived safety flag is enabled, is_safe is true iff that submapping is
empty. -/
theorem C1_flagged_is_threshold_filter (classifier : Classifier)
    (enable_fast_detect : Bool) (texts labels : List String) (t : Rat)
    (ht : 0 ≤ t ∧ t ≤ 1) (results : List DetectResult) (r : DetectResult)
    (hok : classify_texts classifier enable_fast_detect texts labels t =
      Except.ok results)
    (hr : r ∈ results) :
    r.flagged_labels = r.scores.filter (fun p => t ≤ p.2) ∧
    (enable_fast_detect = true →
      (r.is_safe = some true ↔ r.flagged_labels = [])) := by
  unfold classify_texts at hok
  cases hcl : classifier texts labels with
  | error e => rw [hcl] at hok; exact absurd hok (by simp)
  | ok raw0 =>
    rw [hcl] at hok
    obtain rfl : _ = results := Except.ok.inj hok
    obtain ⟨tr, -, rfl⟩ := List.mem_map.1 hr
    refine ⟨rfl, fun hfast => ?_⟩
    simp only [hfast, if_true]
    simp [List.isEmpty_iff]

/-- Witness for C1 at a concrete classifier, text and threshold. -/
theorem C1_flagged_is_threshold_filter_witness :
    wResultC1.flagged_labels =
      wResultC1.scores.filter (fun p => (1/2 : Rat) ≤ p.2) ∧
    (true = true → (wResultC1.is_safe = some true ↔
      wResultC1.flagged_labels = [])) :=
  C1_flagged_is_threshold_filter wClassifierC1 true ["x"] ["a", "b"] (1/2)
    (by norm_num) [wResultC1] wResultC1
    (by simp [classify_texts, wClassifierC1, wResultC1, normalizeRaw,
          dictZip, dictInsert] <;> norm_num)
    (List.mem_singleton.2 rfl)

/-- Claim C2: with labels and threshold both omitted, POST /detect,
GET /detect and the CLI all classify with the default seven-label set and
threshold 0.5.  The classifier is universally quantified away by stating
the property of the route functions, whose value is the argument list of
the one classification call. -/
theorem C2_defaults_applied (texts ts : List String) (hts : ts ≠ []) :
    DEFAULT_LABELS =
      ["profanity", "hate speech", "graphic violence", "self-harm",
       "sexual content", "insult", "terrorism"] ∧
    detect_post_route (mkDetectRequest texts none none) =
      { texts := texts, labels := DEFAULT_LABELS, threshold := 1/2 } ∧
    (∀ enable_text_param,
      detect_get_route enable_text_param (some ts) none
          (detect_get_parse none none).1 (detect_get_parse none none).2 =
        Except.ok
          { texts := ts, labels := DEFAULT_LABELS, threshold := 1/2 }) ∧
    cli_parse_labels none = DEFAULT_LABELS ∧
    cli_parse_threshold none = 1/2 := by
  refine ⟨rfl, ?_, ?_, rfl, by norm_num [cli_parse_threshold]⟩
  · simp only [detect_post_route, mkDetectRequest, Option.getD]
    norm_num
  · intro enable_text_param
    simp only [detect_get_route, detect_get_parse, Option.getD,
      List.isEmpty_iff, DEFAULT_LABELS]
    rw [if_neg hts]
    norm_num

/-- Witness for C2 with concrete texts. -/
theorem C2_defaults_applied_witness :
    DEFAULT_LABELS =
      ["profanity", "hate speech", "graphic violence", "self-harm",
       "sexual content", "insult", "terrorism"] ∧
    detect_post_route (mkDetectRequest ["x"] none none) =
      { texts := ["x"], labels := DEFAULT_LABELS, threshold := 1/2 } ∧
    (∀ enable_text_param,
      detect_get_route enable_text_param (some ["y"]) none
          (detect_get_parse none none).1 (detect_get_parse none none).2 =
        Except.ok
          { texts := ["y"], labels := DEFAULT_LABELS, threshold := 1/2 }) ∧
    cli_parse_labels none = DEFAULT_LABELS ∧
    cli_parse_threshold none = 1/2 :=
  C2_defaults_applied ["x"] ["y"] (by decide)

/-- Claim C3: GET /detect with neither text nor texts raises HTTP 422, and
with text while ENABLE_TEXT_PARAM is disabled raises HTTP 400; both
theorems hold for every classifier, so no classification influences the
outcome. -/
theorem C3_get_validation_errors (classifier : Classifier)
    (enable_fast_detect enable_text_param : Bool)
    (labelsGiven : Option (List String)) (thresholdGiven : Option Rat)
    (texts : Option (List String)) (t : String) :
    detect_get classifier enable_fast_detect enable_text_param none none
        labelsGiven thresholdGiven =
      Except.error
        ⟨422, "Provide either \x27texts\x27 or \x27text\x27 query parameter"⟩ ∧
    detect_get classifier enable_fast_detect false texts (some t)
        labelsGiven thresholdGiven =
      Except.error
        ⟨400, "Single-text query param \x27text\x27 not supported"⟩ :=
  ⟨rfl, rfl⟩

/-- Claim C4: POST /detect/file with a content type other than text/plain
is rejected with HTTP 400 at the route stage, before any classification
call; the composed handler returns that error for every classifier. -/
theorem C4_file_rejects_non_text_plain (classifier : Classifier)
    (enable_fast_detect : Bool) (content_type content : String)
    (labelsGiven : Option (List String)) (thresholdGiven : Option Rat)
    (h : content_type ≠ "text/plain") :
    detect_file_route content_type content
        (detect_file_parse labelsGiven thresholdGiven).1
        (detect_file_parse labelsGiven thresholdGiven).2 =
      Except.error ⟨400, "Only text/plain supported."⟩ ∧
    detect_file classifier enable_fast_detect content_type content
        labelsGiven thresholdGiven =
      Except.error ⟨400, "Only text/plain supported."⟩ := by
  have hroute : detect_file_route content_type content
      (detect_file_parse labelsGiven thresholdGiven).1
      (detect_file_parse labelsGiven thresholdGiven).2 =
      Except.error ⟨400, "Only text/plain supported."⟩ := by
    unfold detect_file_route
    rw [if_pos h]
  refine ⟨hroute, ?_⟩
  unfold detect_file
  rw [hroute]

/-- Witness for C4 at a JSON content type. -/
theorem C4_file_rejects_non_text_plain_witness :
    detect_file_route "application/json" "hello"
        (detect_file_parse none none).1 (detect_file_parse none none).2 =
      Except.error ⟨400, "Only text/plain supported."⟩ ∧
    detect_file wClassifierC1 true "application/json" "hello" none none =
      Except.error ⟨400, "Only text/plain supported."⟩ :=
  C4_file_rejects_non_text_plain wClassifierC1 true "application/json"
    "hello" none none (by decide)

/-- Claim C10: on GET /detect with both text and texts supplied and
ENABLE_TEXT_PARAM on, the route classifies exactly the single text and the
handler behaves as if texts had not been supplied at all. -/
theorem C10_text_takes_precedence (classifier : Classifier)
    (enable_fast_detect : Bool) (ts : List String) (t : String)
    (labelsGiven : Option (List String)) (thresholdGiven : Option Rat)
    (labels : List String) (threshold : Rat) :
    detect_get_route true (some ts) (some t) labels threshold =
      detect_get_route true none (some t) labels threshold ∧
    (detect_get_route true (some ts) (some t) labels threshold).map
        ClassifyCall.texts = Except.ok [t] ∧
    detect_get classifier enable_fast_detect true (some ts) (some t)
        labelsGiven thresholdGiven =
      detect_get classifier enable_fast_detect true none (some t)
        labelsGiven thresholdGiven :=
  ⟨rfl, rfl, rfl⟩

/-- Claim C9: when the underlying model call fails, the API surfaces
HTTP 500 with a generic message and produces no results at all (the whole
batch is discarded), and the CLI propagates the exception out of
detect_bad_content (main does not catch it), again with no partial
results; neither path contains a second classifier call, so nothing is
retried. -/
theorem C9_model_failure_discards_batch (classifier : Classifier)
    (enable_fast_detect : Bool) (texts labels : List String)
    (threshold : Rat) (e : String)
    (hfail : classifier texts labels = Except.error e) :
    classify_texts classifier enable_fast_detect texts labels threshold =
      Except.error ⟨500, "Internal classification error"⟩ ∧
    detect_bad_content classifier texts labels = Except.error e := by
  unfold classify_texts detect_bad_content
  rw [hfail]
  exact ⟨rfl, rfl⟩

/-- Witness for C9 with a concretely failing classifier. -/
theorem C9_model_failure_discards_batch_witness :
    classify_texts wClassifierFail true ["x"] DEFAULT_LABELS (1/2) =
      Except.error ⟨500, "Internal classification error"⟩ ∧
    detect_bad_content wClassifierFail ["x"] DEFAULT_LABELS =
      Except.error "model call failed" :=
  C9_model_failure_discards_batch wClassifierFail true ["x"] DEFAULT_LABELS
    (1/2) "model call failed" rfl

/-- Claim C8: one result record per input text, in input order.  For the
API this holds whenever the classifier returns one raw result per text;
for the CLI display loop it holds under the same batch-length condition,
with the sources in the order of the inputs dict (insertion order, which
is discovered-file order for directory mode). -/
theorem C8_one_result_per_text_in_order :
    (∀ (classifier : Classifier) (enable_fast_detect : Bool)
        (texts labels : List String) (threshold : Rat)
        (out : ClassifierOut) (results : List DetectResult),
      classifier texts labels = Except.ok out →
      (normalizeRaw out).length = texts.length →
      classify_texts classifier enable_fast_detect texts labels threshold =
        Except.ok results →
      results.length = texts.length ∧
        results.map DetectResult.text = texts) ∧
    (∀ (inputs : List (String × String)) (raws : List RawResult)
        (threshold : Rat),
      raws.length = inputs.length →
      (cli_process inputs raws threshold).length = inputs.length ∧
        (cli_process inputs raws threshold).map CliRecord.source =
          inputs.map Prod.fst) := by
  constructor
  · intro classifier enable_fast_detect texts labels threshold out results
      hc hlen hok
    unfold classify_texts at hok
    rw [hc] at hok
    obtain rfl : _ = results := Except.ok.inj hok
    constructor
    · rw [List.length_map, List.length_zip, hlen, Nat.min_self]
    · rw [List.map_map]
      exact List.map_fst_zip texts (normalizeRaw out) (le_of_eq hlen.symm)
  · intro inputs raws threshold hlen
    constructor
    · rw [cli_process, List.length_map, List.length_zip, hlen, Nat.min_self]
    · rw [cli_process, List.map_map]
      have hfst : ((inputs.zip raws).map Prod.fst).map Prod.fst =
          inputs.map Prod.fst := by
        rw [List.map_fst_zip inputs raws (le_of_eq hlen.symm)]
      rw [← hfst, List.map_map]
      rfl

/-- Witness for C8 at a concrete one-text batch on both the API and the
CLI side. -/
theorem C8_one_result_per_text_in_order_witness :
    ([wResultC1].length = (["x"] : List String).length ∧
      [wResultC1].map DetectResult.text = ["x"]) ∧
    ((cli_process wCliInputs wCliRaws (1/2)).length = wCliInputs.length ∧
      (cli_process wCliInputs wCliRaws (1/2)).map CliRecord.source =
        wCliInputs.map Prod.fst) :=
  ⟨C8_one_result_per_text_in_order.1 wClassifierC1 true ["x"] ["a", "b"]
      (1/2) (ClassifierOut.batch [⟨["a", "b"], [3/4, 1/4]⟩]) [wResultC1]
      rfl rfl
      (by simp [classify_texts, wClassifierC1, wResultC1, normalizeRaw,
            dictZip, dictInsert] <;> norm_num),
    C8_one_result_per_text_in_order.2 wCliInputs wCliRaws (1/2) rfl⟩

/-- Inserting a key that is not in the dict appends the pair. -/
theorem dictInsert_fresh {α : Type} (d : List (String × α)) (k : String)
    (v : α) (h : ∀ p ∈ d, p.1 ≠ k) : dictInsert d k v = d ++ [(k, v)] := by
  unfold dictInsert
  rw [if_neg]
  intro hc
  rw [List.any_eq_true] at hc
  obtain ⟨p, hp, hpk⟩ := hc
  exact h p hp (by simpa using hpk)

/-- The directory-walk fold, started from any accumulator whose keys are
fresh for the walked entries, appends exactly the readable contents and
the warnings of the unreadable files, in walk order. -/
theorem load_foldl_eq (entries : List DirEntry)
    (acc : List (String × String) × List String)
    (htxt : ∀ e ∈ entries, txtName e = true)
    (hnodup : (entries.map DirEntry.path).Nodup)
    (hfresh : ∀ e ∈ entries, ∀ p ∈ acc.1, p.1 ≠ e.path) :
    entries.foldl loadStep acc =
      (acc.1 ++ entries.filterMap okEntry,
       acc.2 ++ entries.filterMap warnEntry) := by
  induction entries generalizing acc with
  | nil => simp
  | cons e rest ih =>
    have he : txtName e = true := htxt e (List.mem_cons_self e rest)
    rw [List.map_cons] at hnodup
    have hsplit : e.path ∉ rest.map DirEntry.path ∧
        (rest.map DirEntry.path).Nodup := List.nodup_cons.1 hnodup
    cases hre : e.read with
    | ok c =>
      have hstep : loadStep acc e = (dictInsert acc.1 e.path c, acc.2) := by
        unfold loadStep
        rw [if_pos he, hre]
      rw [List.foldl_cons, hstep, dictInsert_fresh acc.1 e.path c
        (fun p hp => hfresh e (List.mem_cons_self e rest) p hp)]
      rw [ih (acc.1 ++ [(e.path, c)], acc.2)
        (fun x hx => htxt x (List.mem_cons_of_mem e hx)) hsplit.2 ?_]
      · simp [okEntry, warnEntry, hre, List.filterMap_cons]
      · intro x hx p hp
        rcases List.mem_append.1 hp with hp1 | hp2
        · exact hfresh x (List.mem_cons_of_mem e hx) p hp1
        · have hpe : p = (e.path, c) := by simpa using hp2
          subst hpe
          intro hcontra
          refine hsplit.1 ?_
          rw [show e.path = x.path from hcontra]
          exact List.mem_map_of_mem DirEntry.path hx
    | error msg =>
      have hstep : loadStep acc e =
          (acc.1, acc.2 ++ ["Could not read " ++ e.path ++ ": " ++ msg]) := by
        unfold loadStep
        rw [if_pos he, hre]
      rw [List.foldl_cons, hstep,
        ih (acc.1, acc.2 ++ ["Could not read " ++ e.path ++ ": " ++ msg])
          (fun x hx => htxt x (List.mem_cons_of_mem e hx)) hsplit.2
          (fun x hx p hp => hfresh x (List.mem_cons_of_mem e hx) p hp)]
      simp [okEntry, warnEntry, hre, List.filterMap_cons]

/-- Every directory entry contributes to exactly one of the two outputs of
the walk: the texts dict or the warning list. -/
theorem ok_warn_length (entries : List DirEntry) :
    (entries.filterMap okEntry).length +
      (entries.filterMap warnEntry).length = entries.length := by
  induction entries with
  | nil => rfl
  | cons e rest ih =>
    cases hre : e.read <;>
      simp [okEntry, warnEntry, hre, List.filterMap_cons] <;> omega

/-- Claim C7: a directory scan of N distinct .txt files of which exactly
one cannot be read yields the N minus 1 readable contents, in walk order,
plus exactly one warning; the unreadable file is skipped, not fatal. -/
theorem C7_unreadable_file_skipped (entries : List DirEntry)
    (htxt : ∀ e ∈ entries, txtName e = true)
    (hnodup : (entries.map DirEntry.path).Nodup)
    (hone : (entries.filterMap warnEntry).length = 1) :
    (load_texts_from_dir entries).1 = entries.filterMap okEntry ∧
    (load_texts_from_dir entries).1.length + 1 = entries.length ∧
    (load_texts_from_dir entries).2 = entries.filterMap warnEntry ∧
    (load_texts_from_dir entries).2.length = 1 := by
  have h := load_foldl_eq entries ([], []) htxt hnodup
    (fun e he p hp => absurd hp (List.not_mem_nil p))
  have h1 : (load_texts_from_dir entries).1 = entries.filterMap okEntry := by
    unfold load_texts_from_dir
    rw [h]
    simp
  have h2 : (load_texts_from_dir entries).2 =
      entries.filterMap warnEntry := by
    unfold load_texts_from_dir
    rw [h]
    simp
  refine ⟨h1, ?_, h2, by rw [h2]; exact hone⟩
  rw [h1]
  have htotal := ok_warn_length entries
  omega

/-- Witness for C7: three .txt files, the middle one unreadable. -/
theorem C7_unreadable_file_skipped_witness :
    (load_texts_from_dir wDirEntries).1 = wDirEntries.filterMap okEntry ∧
    (load_texts_from_dir wDirEntries).1.length + 1 = wDirEntries.length ∧
    (load_texts_from_dir wDirEntries).2 = wDirEntries.filterMap warnEntry ∧
    (load_texts_from_dir wDirEntries).2.length = 1 :=
  C7_unreadable_file_skipped wDirEntries (by decide) (by decide) (by decide)

/-- Claim C6: a CLI invocation in which none of --text, --file, --dir
supplies any input (each is absent, empty and hence falsy, or names a
directory whose walk finds no readable .txt file) stops with the argparse
usage error before the classifier is loaded: cli_collect_inputs is the
phase of main before the pipeline call, and the whole run returns the
same usage error for every classifier. -/
theorem C6_no_input_is_usage_error (classifier : Classifier)
    (text : Option String) (file : Option (String × Option String))
    (dir : Option (String × Option (List DirEntry)))
    (labelsArg : Option String) (thresholdArg : Option Rat)
    (htext : text = none ∨ text = some "")
    (hfile : file = none ∨ ∃ c, file = some ("", c))
    (hdir : dir = none ∨ (∃ es, dir = some ("", es)) ∨
      ∃ p entries, dir = some (p, some entries) ∧
        (load_texts_from_dir entries).1 = []) :
    cli_collect_inputs text file dir =
      Except.error (CliError.usage
        "Please specify --text, --file, or --dir with at least one input") ∧
    cli_main classifier text file dir labelsArg thresholdArg =
      Except.error (CliError.usage
        "Please specify --text, --file, or --dir with at least one input") := by
  have hcollect : cli_collect_inputs text file dir =
      Except.error (CliError.usage
        "Please specify --text, --file, or --dir with at least one input") := by
    rcases htext with rfl | rfl <;>
      rcases hfile with rfl | ⟨c, rfl⟩ <;>
      rcases hdir with rfl | ⟨es, rfl⟩ | ⟨p, entries, rfl, hload⟩ <;>
      simp_all [cli_collect_inputs, dictUpdate]
  refine ⟨hcollect, ?_⟩
  unfold cli_main
  rw [hcollect]
  rfl

/-- Witness for C6: no flag given at all. -/
theorem C6_no_input_is_usage_error_witness :
    cli_collect_inputs none none none =
      Except.error (CliError.usage
        "Please specify --text, --file, or --dir with at least one input") ∧
    cli_main wClassifierC1 none none none none none =
      Except.error (CliError.usage
        "Please specify --text, --file, or --dir with at least one input") :=
  C6_no_input_is_usage_error wClassifierC1 none none none none none
    (Or.inl rfl) (Or.inl rfl) (Or.inl rfl)

/-- Counterexample to claim C5: the CLI --file branch does not split file
content into lines.  The file notes.txt contains the two-line content
consisting of a, a line feed and b (two lines by Python splitlines), yet
main records the single text equal to the whole content, not the list of
the two lines. -/
theorem C5_cli_file_counterexample :
    cli_collect_inputs none (some ("notes.txt", some "a\nb")) none =
      Except.ok [("notes.txt", "a\nb")] ∧
    pySplitlines "a\nb" = ["a", "b"] ∧
    (["a\nb"] : List String) ≠ ["a", "b"] := by
  refine ⟨rfl, rfl, by decide⟩

/-- Claim C5 as amended: only the uploaded file of POST /detect/file is
split into lines, and whether it is split is decided by the content
containing a line feed (not by its number of lines); a local file given
via --file on the CLI is always read as one single text, never split. -/
theorem C5_upload_splits_cli_does_not (content : String)
    (labels : List String) (threshold : Rat) (path : String)
    (hpath : path ≠ "") :
    (content.contains '\n' = true →
      detect_file_route "text/plain" content labels threshold =
        Except.ok ⟨pySplitlines content, labels, threshold⟩) ∧
    (content.contains '\n' = false →
      detect_file_route "text/plain" content labels threshold =
        Except.ok ⟨[content], labels, threshold⟩) ∧
    cli_collect_inputs none (some (path, some content)) none =
      Except.ok [(path, content)] := by
  refine ⟨fun h => ?_, fun h => ?_, ?_⟩
  · unfold detect_file_route
    rw [if_neg (by simp), h]
    rfl
  · unfold detect_file_route
    rw [if_neg (by simp), h]
    rfl
  · simp [cli_collect_inputs, dictInsert, hpath]
    rfl

/-- Witness for the amended C5 at a concrete two-line file. -/
theorem C5_upload_splits_cli_does_not_witness :
    (("a\nb" : String).contains '\n' = true →
      detect_file_route "text/plain" "a\nb" DEFAULT_LABELS (1/2) =
        Except.ok ⟨pySplitlines "a\nb", DEFAULT_LABELS, 1/2⟩) ∧
    (("a\nb" : String).contains '\n' = false →
      detect_file_route "text/plain" "a\nb" DEFAULT_LABELS (1/2) =
        Except.ok ⟨["a\nb"], DEFAULT_LABELS, 1/2⟩) ∧
    cli_collect_inputs none (some ("notes.txt", some "a\nb")) none =
      Except.ok [("notes.txt", "a\nb")] :=
  C5_upload_splits_cli_does_not "a\nb" DEFAULT_LABELS (1/2) "notes.txt"
    (by decide)
